import Mathlib

set_option maxRecDepth 16384

/-!
Shallow embedding of the authentication and authorization subsystem of the
rust-axum API (src/auth.rs, src/error.rs, src/handlers.rs, src/models.rs),
together with theorems settling the specification claims.

Machine integers are modelled as Nat/Int with explicit wrap where the source
casts (the `as usize` cast in token expiry).  The external JWT library
(jsonwebtoken) and the bcrypt / uuid crates are not part of the repository;
where their behavior decides a claim, the model follows the spec's words and
the definitions say so in their doc comments.
-/

/-- Equality of `Except` results is decidable when both components are. -/
instance {ε α : Type} [DecidableEq ε] [DecidableEq α] : DecidableEq (Except ε α) := fun x y =>
  match x, y with
  | .ok a, .ok b => if h : a = b then isTrue (by rw [h]) else isFalse (by simp [h])
  | .ok _, .error _ => isFalse (by simp)
  | .error _, .ok _ => isFalse (by simp)
  | .error a, .error b => if h : a = b then isTrue (by rw [h]) else isFalse (by simp [h])

/-- The application error enum, translated from `error.rs` (`AppError`).
`Database` carries the display text of the underlying `sqlx::Error`. -/
inductive AppError
  | Database (msg : String)
  | Unauthorized (msg : String)
  | Forbidden (msg : String)
  | NotFound (msg : String)
  | BadRequest (msg : String)
  | Conflict (msg : String)
  | InternalServerError (msg : String)
deriving DecidableEq, Repr

/-- `AppError::into_response` from `error.rs`: the HTTP status code and the
string put in the `detail` field of the JSON body. -/
def into_response : AppError → Nat × String
  | .Database _ => (500, "Internal server error")
  | .Unauthorized m => (401, m)
  | .Forbidden m => (403, m)
  | .NotFound m => (404, m)
  | .BadRequest m => (400, m)
  | .Conflict m => (409, m)
  | .InternalServerError m => (500, m)

/-- Token claims, translated from `auth.rs` (`struct Claims`). `exp` is a
`usize` in the source, modelled as `Nat`. -/
structure Claims where
  sub : String
  exp : Nat
  is_admin : Bool
deriving DecidableEq, Repr

/-- Auth configuration, translated from `auth.rs` (`struct AuthConfig`).
`jwt_expire_minutes` is an `i64`, modelled as `Int`. -/
structure AuthConfig where
  jwt_secret : String
  jwt_expire_minutes : Int
deriving DecidableEq, Repr

/-- A 128-bit UUID value. The source uses `uuid::Uuid`; the model carries the
numeric value (the handlers only format, parse and compare UUIDs). -/
structure Uuid where
  val : Nat
deriving DecidableEq, Repr

/-- Hex digit character for a value below 16, lowercase (as the uuid crate's
`to_string` prints). -/
def hexDigit (n : Nat) : Char :=
  if n < 10 then Char.ofNat (48 + n) else Char.ofNat (87 + n)

/-- Fixed-width lowercase hex rendering, most significant digit first. -/
def hexPadAux : Nat → Nat → List Char → List Char
  | 0, _, acc => acc
  | w + 1, n, acc => hexPadAux w (n / 16) (hexDigit (n % 16) :: acc)

def hexPad (w n : Nat) : String :=
  String.mk (hexPadAux w n [])

/-- `Uuid::to_string` of the uuid crate: the hyphenated lowercase hex form
8-4-4-4-12 of the 128-bit value. -/
def Uuid.to_string (u : Uuid) : String :=
  hexPad 8 ((u.val >>> 96) % 2 ^ 32) ++ "-" ++
  hexPad 4 ((u.val >>> 80) % 2 ^ 16) ++ "-" ++
  hexPad 4 ((u.val >>> 64) % 2 ^ 16) ++ "-" ++
  hexPad 4 ((u.val >>> 48) % 2 ^ 16) ++ "-" ++
  hexPad 12 (u.val % 2 ^ 48)

/-- Value of one hex character, upper or lower case. -/
def hexVal (c : Char) : Option Nat :=
  if 48 ≤ c.toNat ∧ c.toNat ≤ 57 then some (c.toNat - 48)
  else if 97 ≤ c.toNat ∧ c.toNat ≤ 102 then some (c.toNat - 87)
  else if 65 ≤ c.toNat ∧ c.toNat ≤ 70 then some (c.toNat - 55)
  else none

/-- Modelled from the spec: `Uuid::parse_str` of the uuid crate is outside the
repository; the model accepts the hyphenated 8-4-4-4-12 hex form (the form
`Uuid::to_string` produces), hyphens at offsets 8, 13, 18 and 23, hex digits
of either case elsewhere.  Strings such as "x" or "not-a-uuid" are rejected
both here and by the crate. -/
def Uuid.parse (s : String) : Option Uuid :=
  let cs := s.data
  if cs.length = 36 ∧ cs.get? 8 = some '-' ∧ cs.get? 13 = some '-' ∧
      cs.get? 18 = some '-' ∧ cs.get? 23 = some '-' then
    let hexs := cs.take 8 ++ (cs.drop 9).take 4 ++ (cs.drop 14).take 4 ++
      (cs.drop 19).take 4 ++ cs.drop 24
    if hexs.all (fun c => (hexVal c).isSome) then
      some ⟨hexs.foldl (fun a c => a * 16 + (hexVal c).getD 0) 0⟩
    else none
  else none

/-- A leaf JSON value, enough for the flat claims payload object. -/
inductive JLeaf
  | jnull
  | jbool (b : Bool)
  | jnum (n : Int)
  | jstr (s : String)
deriving DecidableEq, Repr

/-- The JWT payload: a flat JSON object (field name, value). -/
abbrev Payload := List (String × JLeaf)

/-- Serde serialization of `Claims` (derive Serialize in `auth.rs`): the JSON
object with fields `sub`, `exp`, `is_admin`. -/
def payloadOfClaims (c : Claims) : Payload :=
  [("sub", .jstr c.sub), ("exp", .jnum (c.exp : Int)), ("is_admin", .jbool c.is_admin)]

/-- Serde deserialization of `Claims` (derive Deserialize in `auth.rs`):
requires a string `sub`, a `usize` `exp` (a non-negative integer below 2^64)
and a boolean `is_admin`; unknown fields are ignored. -/
def claimsOfPayload (p : Payload) : Option Claims :=
  match p.lookup "sub", p.lookup "exp", p.lookup "is_admin" with
  | some (.jstr s), some (.jnum n), some (.jbool b) =>
    if 0 ≤ n ∧ n < 2 ^ 64 then some ⟨s, n.toNat, b⟩ else none
  | _, _, _ => none

/-- The JWT signing algorithm named in the token header.  `Header::default()`
uses HS256 and `Validation::default()` accepts only HS256. -/
inductive Alg
  | hs256
  | other (name : String)
deriving DecidableEq, Repr

/-- The JWT header, translated from the jsonwebtoken `Header` (only the
algorithm field matters to this code). -/
structure JwtHeader where
  alg : Alg
deriving DecidableEq, Repr

/-- `Header::default()`: HS256. -/
def defaultHeader : JwtHeader := ⟨.hs256⟩

/-- Modelled from the spec: an ideal HMAC tag over the signing input.  The
real HMAC-SHA256 is outside the repository; the model makes the tag determine
the secret and the signed content exactly (no collisions), which is the
tamper-evidence the spec ascribes to the signature. -/
structure MacTag where
  secret : String
  hd : JwtHeader
  payload : Payload
deriving DecidableEq, Repr

/-- The ideal MAC of a header/payload pair under a secret. -/
def hmacSign (secret : String) (hd : JwtHeader) (p : Payload) : MacTag :=
  ⟨secret, hd, p⟩

/-- A token on the wire: either not a well-formed three-segment JWT envelope
at all, or a header, payload and signature tag.  Base64url framing is not
modelled; `malformed` stands for every string that fails envelope parsing. -/
inductive TokenWire
  | malformed (raw : String)
  | enveloped (hd : JwtHeader) (payload : Payload) (sig : MacTag)
deriving DecidableEq, Repr

/-- Internal error of token decoding, mirroring the jsonwebtoken error kinds
this code can hit before `decode_token` collapses them. -/
inductive JwtError
  | invalidToken
  | invalidAlgorithm
  | invalidSignature
  | expiredSignature
  | jsonError
deriving DecidableEq, Repr

/-- Modelled from the spec: the jsonwebtoken `decode::<Claims>` call with
`Validation { validate_exp = true, validate_nbf = false, validate_aud =
false }`.  The library is outside the repository; per the spec the steps are:
reject a malformed envelope, require the HS256 algorithm, check the signature
against the secret, deserialize the payload as `Claims`, and require
`exp > now` (strict, integer seconds). -/
def decodeJwt (t : TokenWire) (secret : String) (now : Nat) : Except JwtError Claims :=
  match t with
  | .malformed _ => .error .invalidToken
  | .enveloped hd p sig =>
    if hd.alg ≠ .hs256 then .error .invalidAlgorithm
    else if sig ≠ hmacSign secret hd p then .error .invalidSignature
    else
      match claimsOfPayload p with
      | none => .error .jsonError
      | some c => if c.exp > now then .ok c else .error .expiredSignature

/-- `decode_token` from `auth.rs`: runs the library decode and maps every
failure to `Unauthorized("Invalid token")` (the cause is only logged). -/
def decode_token (t : TokenWire) (secret : String) (now : Nat) : Except AppError Claims :=
  match decodeJwt t secret now with
  | .ok c => .ok c
  | .error _ => .error (.Unauthorized "Invalid token")

/-- `create_token` from `auth.rs`: expiry is `now` plus the configured
minutes, in seconds, cast `as usize` (wrap modulo 2^64); claims carry the
UUID's string form and the admin flag; the result is signed with the
configured secret under the default (HS256) header. -/
def create_token (user_id : Uuid) (is_admin : Bool) (config : AuthConfig) (now : Nat) :
    Except AppError TokenWire :=
  let expiration : Nat := (((now : Int) + 60 * config.jwt_expire_minutes) % 2 ^ 64).toNat
  let claims : Claims := { sub := user_id.to_string, exp := expiration, is_admin := is_admin }
  .ok (.enveloped defaultHeader (payloadOfClaims claims)
        (hmacSign config.jwt_secret defaultHeader (payloadOfClaims claims)))

/-- A header value is raw bytes in the http crate; a header map is a list of
(name, value bytes) pairs, names matched case-insensitively. -/
abbrev HeaderMap := List (String × List Nat)

/-- ASCII lowercase of one character. -/
def lowerAscii (c : Char) : Char :=
  if 65 ≤ c.toNat ∧ c.toNat ≤ 90 then Char.ofNat (c.toNat + 32) else c

/-- ASCII lowercase of a header name. -/
def lowerName (s : String) : String := String.mk (s.data.map lowerAscii)

/-- `HeaderMap::get`: first entry whose name matches case-insensitively. -/
def HeaderMap.get (h : HeaderMap) (name : String) : Option (List Nat) :=
  (h.find? (fun kv => lowerName kv.1 == lowerName name)).map (·.2)

/-- Modelled from the spec: `HeaderValue::to_str` of the http crate succeeds
exactly when every byte is visible ASCII (32..126) or horizontal tab. -/
def isVisibleAscii (b : Nat) : Bool :=
  (decide (32 ≤ b) && decide (b < 127)) || decide (b = 9)

/-- `HeaderValue::to_str`: the value as text, or failure on a byte outside
the visible-ASCII range. -/
def headerValueToStr (bytes : List Nat) : Option String :=
  if bytes.all isVisibleAscii then some (String.mk (bytes.map Char.ofNat)) else none

/-- `str::starts_with` on a literal pattern: the first `p.length` characters
equal `p` (identical to the byte-level test here, all text being ASCII). -/
def startsWithLit (s p : String) : Bool :=
  decide (s.data.take p.data.length = p.data)

/-- `extract_token_from_headers` from `auth.rs`: look up `authorization`,
require a text value and the literal "Bearer " (byte) prefix, and return the
rest of the value (byte index 7 equals character index 7 since the value is
ASCII here). -/
def extract_token_from_headers (headers : HeaderMap) : Except AppError String :=
  match headers.get "authorization" with
  | none => .error (.Unauthorized "Missing authorization header")
  | some v =>
    match headerValueToStr v with
    | none => .error (.Unauthorized "Invalid authorization header")
    | some auth_header =>
      if startsWithLit auth_header "Bearer " then .ok (String.mk (auth_header.data.drop 7))
      else .error (.Unauthorized "Invalid authorization format")

/-- Bytes of an ASCII string, for building concrete header maps. -/
def strBytes (s : String) : List Nat := s.data.map (·.toNat)

/-- A stored user row (the `users` table).  `models.rs` reads projections of
it: `UserRow` (id, username, email, bio, created_at) and `LoginRow`
(id, password_hash, is_admin). -/
structure DbUser where
  id : Uuid
  username : String
  email : String
  password_hash : String
  bio : Option String
  is_admin : Bool
  created_at : Int
deriving DecidableEq, Repr

/-- A stored post row (the `posts` table), as in `PostRow` of `models.rs`
less the computed like count. -/
structure DbPost where
  id : Uuid
  author_id : Uuid
  content : String
  created_at : Int
deriving DecidableEq, Repr

/-- The database state the modelled handlers touch. -/
structure Db where
  users : List DbUser
  posts : List DbPost
deriving DecidableEq, Repr

/-- Response model `User` from `models.rs`; `From<UserRow>` renders the id
via `Uuid::to_string`. -/
structure User where
  id : String
  username : String
  email : String
  bio : Option String
  created_at : Int
deriving DecidableEq, Repr

/-- `User::from(UserRow)` from `models.rs`, on the stored row. -/
def User.ofRow (u : DbUser) : User :=
  ⟨u.id.to_string, u.username, u.email, u.bio, u.created_at⟩

/-- `LoginRow` from `models.rs` (result of the login credential lookup). -/
structure LoginRow where
  id : Uuid
  password_hash : String
  is_admin : Bool
deriving DecidableEq, Repr

/-- `LoginResponse` from `models.rs`.  The base64 serialization of the token
string is not modelled, so the response carries the wire token. -/
structure LoginResponse where
  access_token : TokenWire
deriving DecidableEq, Repr

/-- Error of the bcrypt crate, opaque to this code (its content is always
discarded by `map_err(|_| ...)`). -/
structure BcryptError where
  msg : String
deriving DecidableEq, Repr

/-- Outcome of `tokio::task::spawn_blocking(...).await`: the task's own
result, or a join (worker-dispatch) failure. -/
inductive JoinOutcome (α : Type)
  | joined (a : α)
  | joinFailed
deriving DecidableEq, Repr

/-- `hash_password` from `auth.rs`, as a function of the spawned bcrypt
task's outcome: a join failure maps to `InternalServerError("Task join
error")`, a bcrypt failure to `InternalServerError("Failed to hash
password")`, both discarding the underlying error. -/
def hash_password (spawnRes : JoinOutcome (Except BcryptError String)) :
    Except AppError String :=
  match spawnRes with
  | .joinFailed => .error (.InternalServerError "Task join error")
  | .joined (.error _) => .error (.InternalServerError "Failed to hash password")
  | .joined (.ok h) => .ok h

/-- `verify_password` from `auth.rs`, as a function of the spawned bcrypt
task's outcome (same shape as `hash_password`). -/
def verify_password (spawnRes : JoinOutcome (Except BcryptError Bool)) :
    Except AppError Bool :=
  match spawnRes with
  | .joinFailed => .error (.InternalServerError "Task join error")
  | .joined (.error _) => .error (.InternalServerError "Failed to verify password")
  | .joined (.ok b) => .ok b

/-- `login` from `handlers.rs`, as a function of the credential lookup result
and of the spawned bcrypt verification outcome: a lookup miss falls through to
`Unauthorized("Invalid credentials")`; a found row with a failed password
check falls through to the same error; a successful check issues a token. -/
def login (login_row : Option LoginRow)
    (verifyRes : JoinOutcome (Except BcryptError Bool))
    (config : AuthConfig) (now : Nat) : Except AppError LoginResponse :=
  match login_row with
  | some row =>
    match verify_password verifyRes with
    | .error e => .error e
    | .ok true =>
      match create_token row.id row.is_admin config now with
      | .error e => .error e
      | .ok token => .ok ⟨token⟩
    | .ok false => .error (.Unauthorized "Invalid credentials")
  | none => .error (.Unauthorized "Invalid credentials")

/-- `me` from `handlers.rs`: parse `claims.sub` as a UUID (failure is
`BadRequest("Invalid user ID")`), then look the user up (the `SQL_ME` query,
modelled from the spec as a lookup by id). -/
def me (claims : Claims) (st : Db) : Except AppError User :=
  match Uuid.parse claims.sub with
  | none => .error (.BadRequest "Invalid user ID")
  | some user_uuid =>
    match st.users.find? (fun u => u.id == user_uuid) with
    | some row => .ok (User.ofRow row)
    | none => .error (.Unauthorized "User not found")

/-- `CreateUser` request body from `models.rs`. -/
structure CreateUser where
  username : String
  email : String
  password : String
deriving DecidableEq, Repr

/-- `UpdateUser` request body from `models.rs`. -/
structure UpdateUser where
  bio : Option String
deriving DecidableEq, Repr

/-- `PaginationQuery` from `handlers.rs` (i64 limit and offset). -/
structure PaginationQuery where
  limit : Int
  offset : Int
deriving DecidableEq, Repr

/-- `create_user` from `handlers.rs`: admin guard first, then the password
hash, then the insert.  `SQL_CREATE_USER` is modelled from the spec as an
insert returning the generated id (`newId`), failing on a duplicate username
or email (mapped by the handler to `BadRequest("Failed to create user")`);
the follow-up `SQL_GET_USER` fetch returns the inserted row. -/
def create_user (claims : Claims) (user_data : CreateUser)
    (spawnRes : JoinOutcome (Except BcryptError String))
    (newId : Uuid) (created_at : Int) (st : Db) :
    Except AppError (Nat × User) × Db :=
  if !claims.is_admin then (.error (.Forbidden "Admin access required"), st)
  else
    match hash_password spawnRes with
    | .error e => (.error e, st)
    | .ok password_hash =>
      if st.users.any (fun u => u.email == user_data.email || u.username == user_data.username) then
        (.error (.BadRequest "Failed to create user"), st)
      else
        let row : DbUser :=
          ⟨newId, user_data.username, user_data.email, password_hash, none, false, created_at⟩
        (.ok (201, User.ofRow row), { st with users := st.users ++ [row] })

/-- `list_users` from `handlers.rs`: admin guard, then the paginated list
(`SQL_LIST_USERS` modelled from the spec as offset/limit over the stored
order). -/
def list_users (claims : Claims) (pagination : PaginationQuery) (st : Db) :
    Except AppError (List User) :=
  if !claims.is_admin then .error (.Forbidden "Admin access required")
  else .ok (((st.users.drop pagination.offset.toNat).take pagination.limit.toNat).map User.ofRow)

/-- `get_user` from `handlers.rs`: admin guard, UUID parse
(`BadRequest("Invalid user ID")`), then lookup (`SQL_GET_USER` modelled from
the spec as a lookup by id). -/
def get_user (claims : Claims) (target_user_id : String) (st : Db) :
    Except AppError User :=
  if !claims.is_admin then .error (.Forbidden "Admin access required")
  else
    match Uuid.parse target_user_id with
    | none => .error (.BadRequest "Invalid user ID")
    | some target_uuid =>
      match st.users.find? (fun u => u.id == target_uuid) with
      | some row => .ok (User.ofRow row)
      | none => .error (.NotFound "User not found")

/-- `update_user` from `handlers.rs`: admin guard, UUID parse, then the
update (`SQL_UPDATE_USER` modelled from the spec as setting `bio` and
returning the updated row; `None` means no row matched → `NotFound`). -/
def update_user (claims : Claims) (target_user_id : String)
    (update_data : UpdateUser) (st : Db) : Except AppError User × Db :=
  if !claims.is_admin then (.error (.Forbidden "Admin access required"), st)
  else
    match Uuid.parse target_user_id with
    | none => (.error (.BadRequest "Invalid user ID"), st)
    | some target_uuid =>
      match st.users.find? (fun u => u.id == target_uuid) with
      | none => (.error (.NotFound "User not found"), st)
      | some row =>
        let row2 := { row with bio := update_data.bio }
        (.ok (User.ofRow row2),
          { st with users := st.users.map (fun u => if u.id == target_uuid then row2 else u) })

/-- `delete_user` from `handlers.rs`: admin guard, UUID parse, then the
delete (`SQL_DELETE_USER` modelled from the spec as deleting the rows with
that id); zero rows affected → `NotFound`, otherwise 204. -/
def delete_user (claims : Claims) (target_user_id : String) (st : Db) :
    Except AppError Nat × Db :=
  if !claims.is_admin then (.error (.Forbidden "Admin access required"), st)
  else
    match Uuid.parse target_user_id with
    | none => (.error (.BadRequest "Invalid user ID"), st)
    | some target_uuid =>
      let remaining := st.users.filter (fun u => !(u.id == target_uuid))
      if st.users.length - remaining.length = 0 then (.error (.NotFound "User not found"), st)
      else (.ok 204, { st with users := remaining })

/-- `delete_post` from `handlers.rs`: parse the caller's `claims.sub` and the
path post id (each failure a `BadRequest`), fetch the post's author from the
current state (`SQL_GET_POST_AUTHOR` modelled from the spec as a lookup by
post id; absent → `NotFound`), forbid unless owner or admin, then delete
(`SQL_DELETE_POST` modelled from the spec as deleting the row) and 204. -/
def delete_post (claims : Claims) (post_id : String) (st : Db) :
    Except AppError Nat × Db :=
  match Uuid.parse claims.sub with
  | none => (.error (.BadRequest "Invalid user ID"), st)
  | some user_uuid =>
    match Uuid.parse post_id with
    | none => (.error (.BadRequest "Invalid post ID"), st)
    | some post_uuid =>
      match (st.posts.find? (fun p => p.id == post_uuid)).map (fun p => p.author_id) with
      | none => (.error (.NotFound "Post not found"), st)
      | some author_id =>
        if author_id ≠ user_uuid ∧ ¬claims.is_admin then
          (.error (.Forbidden "You can only delete your own posts"), st)
        else
          (.ok 204, { st with posts := st.posts.filter (fun p => !(p.id == post_uuid)) })

/-- Serde round-trip: the payload `create_token` serializes deserializes back
to the same claims whenever `exp` fits in a `usize`. -/
lemma claimsOfPayload_payloadOfClaims (c : Claims) (h : c.exp < 2 ^ 64) :
    claimsOfPayload (payloadOfClaims c) = some c := by
  have h64 : ((c.exp : Int) < 2 ^ 64) := by exact_mod_cast h
  have hlit : c.exp < 18446744073709551616 := by norm_num at h; exact h
  simp [claimsOfPayload, payloadOfClaims, List.lookup, Int.natCast_nonneg, h64, hlit]

/-- C10: a header map whose authorization value is exactly "Bearer " makes
`extract_token_from_headers` succeed with the empty string. -/
theorem extract_token_empty_token_ok :
    extract_token_from_headers [("authorization", strBytes "Bearer ")] = .ok "" := by
  decide

/-- C4: `extract_token_from_headers` fails with an `Unauthorized` error when
the authorization header is absent, when its value is not text, or when the
value lacks the exact "Bearer " prefix; otherwise it returns exactly the
substring after the 7-character prefix, unmodified. -/
theorem extract_token_cases (headers : HeaderMap) :
    (HeaderMap.get headers "authorization" = none →
      extract_token_from_headers headers = .error (.Unauthorized "Missing authorization header")) ∧
    (∀ v, HeaderMap.get headers "authorization" = some v → headerValueToStr v = none →
      extract_token_from_headers headers = .error (.Unauthorized "Invalid authorization header")) ∧
    (∀ v s, HeaderMap.get headers "authorization" = some v → headerValueToStr v = some s →
      startsWithLit s "Bearer " = false →
      extract_token_from_headers headers = .error (.Unauthorized "Invalid authorization format")) ∧
    (∀ v s, HeaderMap.get headers "authorization" = some v → headerValueToStr v = some s →
      startsWithLit s "Bearer " = true →
      extract_token_from_headers headers = .ok (String.mk (s.data.drop 7))) := by
  refine ⟨fun h => ?_, fun v hv hs => ?_, fun v s hv hs hpre => ?_, fun v s hv hs hpre => ?_⟩
  · simp [extract_token_from_headers, h]
  · simp [extract_token_from_headers, hv, hs]
  · simp [extract_token_from_headers, hv, hs, hpre]
  · simp [extract_token_from_headers, hv, hs, hpre]

/-- Witness for C4: each of the three failure cases and the success case at a
concrete header map ("Bearer abc123" yields "abc123"; the lowercase scheme
and a non-text byte fail; so does an absent header). -/
theorem extract_token_cases_witness :
    extract_token_from_headers [] = .error (.Unauthorized "Missing authorization header") ∧
    extract_token_from_headers [("authorization", [200])] =
      .error (.Unauthorized "Invalid authorization header") ∧
    extract_token_from_headers [("authorization", strBytes "bearer abc123")] =
      .error (.Unauthorized "Invalid authorization format") ∧
    extract_token_from_headers [("Authorization", strBytes "Bearer abc123")] = .ok "abc123" := by
  refine ⟨(extract_token_cases []).1 (by decide),
    (extract_token_cases _).2.1 [200] (by decide) (by decide),
    (extract_token_cases _).2.2.1 (strBytes "bearer abc123") "bearer abc123"
      (by decide) (by decide) (by decide), ?_⟩
  have h := (extract_token_cases [("Authorization", strBytes "Bearer abc123")]).2.2.2
    (strBytes "Bearer abc123") "Bearer abc123" (by decide) (by decide) (by decide)
  exact h.trans (by decide)

/-- C7: a failed login surfaces the same `Unauthorized("Invalid credentials")`
value whether the credential lookup missed or the password check failed
against an existing row, so the error does not reveal whether the email
exists. -/
theorem login_failure_uniform_error (row : LoginRow)
    (verifyRes : JoinOutcome (Except BcryptError Bool)) (config : AuthConfig) (now : Nat) :
    login none verifyRes config now = .error (.Unauthorized "Invalid credentials") ∧
    login (some row) (.joined (.ok false)) config now =
      .error (.Unauthorized "Invalid credentials") ∧
    login none verifyRes config now = login (some row) (.joined (.ok false)) config now :=
  ⟨rfl, rfl, rfl⟩

/-- C8: a bcrypt-primitive failure or a worker-join failure in
`hash_password` / `verify_password` surfaces an `InternalServerError` whose
message is a fixed literal independent of the underlying error (no detail of
the cause reaches the response body), and the response status is 500. -/
theorem hash_failures_opaque_internal_error (e : BcryptError) :
    hash_password (.joined (.error e)) = .error (.InternalServerError "Failed to hash password") ∧
    verify_password (.joined (.error e)) =
      .error (.InternalServerError "Failed to verify password") ∧
    hash_password .joinFailed = .error (.InternalServerError "Task join error") ∧
    verify_password .joinFailed = .error (.InternalServerError "Task join error") ∧
    (into_response (.InternalServerError "Failed to hash password")).1 = 500 ∧
    (into_response (.InternalServerError "Failed to verify password")).1 = 500 ∧
    (into_response (.InternalServerError "Task join error")).1 = 500 :=
  ⟨rfl, rfl, rfl, rfl, rfl, rfl, rfl⟩

/-- C2: every failure of `decode_token` — malformed envelope, signature
mismatch (in particular a token signed under a different secret), expired
timestamp, payload shape not matching `Claims` — surfaces the single opaque
`Unauthorized("Invalid token")`, and no failure produces any other error. -/
theorem decode_token_failures_collapse (secret : String) (now : Nat) :
    (∀ t e, decode_token t secret now = .error e → e = .Unauthorized "Invalid token") ∧
    (∀ raw, decode_token (.malformed raw) secret now = .error (.Unauthorized "Invalid token")) ∧
    (∀ hd p sig, sig ≠ hmacSign secret hd p →
      decode_token (.enveloped hd p sig) secret now = .error (.Unauthorized "Invalid token")) ∧
    (∀ hd p s2, s2 ≠ secret →
      decode_token (.enveloped hd p (hmacSign s2 hd p)) secret now =
        .error (.Unauthorized "Invalid token")) ∧
    (∀ hd p c, claimsOfPayload p = some c → c.exp ≤ now →
      decode_token (.enveloped hd p (hmacSign secret hd p)) secret now =
        .error (.Unauthorized "Invalid token")) ∧
    (∀ hd p, claimsOfPayload p = none →
      decode_token (.enveloped hd p (hmacSign secret hd p)) secret now =
        .error (.Unauthorized "Invalid token")) := by
  refine ⟨?_, ?_, ?_, ?_, ?_, ?_⟩
  · intro t e h
    unfold decode_token at h
    cases hq : decodeJwt t secret now with
    | ok c => rw [hq] at h; exact absurd h (by simp)
    | error j => rw [hq] at h; exact (Except.error.injEq _ _).mp h.symm |>.symm ▸ rfl
  · intro raw; rfl
  · intro hd p sig hs
    by_cases halg : hd.alg = .hs256
    · simp [decode_token, decodeJwt, halg, hs]
    · simp [decode_token, decodeJwt, halg]
  · intro hd p s2 hs
    have hne : hmacSign s2 hd p ≠ hmacSign secret hd p := by
      intro h; exact hs (congrArg MacTag.secret h)
    by_cases halg : hd.alg = .hs256
    · simp [decode_token, decodeJwt, halg, hne]
    · simp [decode_token, decodeJwt, halg]
  · intro hd p c hc hexp
    by_cases halg : hd.alg = .hs256
    · simp [decode_token, decodeJwt, halg, hc, Nat.not_lt.mpr hexp]
    · simp [decode_token, decodeJwt, halg]
  · intro hd p hc
    by_cases halg : hd.alg = .hs256
    · simp [decode_token, decodeJwt, halg, hc]
    · simp [decode_token, decodeJwt, halg]

/-- Witness for C2: the four failure causes at concrete inputs, each
producing exactly `Unauthorized("Invalid token")`. -/
theorem decode_token_failures_collapse_witness :
    decode_token (.malformed "x") "s" 5 = .error (.Unauthorized "Invalid token") ∧
    decode_token (.enveloped defaultHeader [] (hmacSign "s2" defaultHeader [])) "s" 5 =
      .error (.Unauthorized "Invalid token") ∧
    decode_token (.enveloped defaultHeader (payloadOfClaims ⟨"u", 3, false⟩)
        (hmacSign "s" defaultHeader (payloadOfClaims ⟨"u", 3, false⟩))) "s" 5 =
      .error (.Unauthorized "Invalid token") ∧
    decode_token (.enveloped defaultHeader [] (hmacSign "s" defaultHeader [])) "s" 5 =
      .error (.Unauthorized "Invalid token") :=
  ⟨(decode_token_failures_collapse "s" 5).2.1 "x",
    (decode_token_failures_collapse "s" 5).2.2.2.1 defaultHeader [] "s2" (by decide),
    (decode_token_failures_collapse "s" 5).2.2.2.2.1 defaultHeader _ ⟨"u", 3, false⟩
      (claimsOfPayload_payloadOfClaims ⟨"u", 3, false⟩ (by norm_num)) (by norm_num),
    (decode_token_failures_collapse "s" 5).2.2.2.2.2 defaultHeader [] (by decide)⟩

/-- C3: for a well-formed, correctly signed token, decoding succeeds exactly
when `exp > now` (strict, integer seconds), and a token whose `exp` is not in
the future fails with `Unauthorized("Invalid token")`. -/
theorem decode_token_expiry_strict (hd : JwtHeader) (p : Payload) (c : Claims)
    (secret : String) (now : Nat) (halg : hd.alg = .hs256)
    (hp : claimsOfPayload p = some c) :
    (decode_token (.enveloped hd p (hmacSign secret hd p)) secret now = .ok c ↔ now < c.exp) ∧
    (c.exp ≤ now →
      decode_token (.enveloped hd p (hmacSign secret hd p)) secret now =
        .error (.Unauthorized "Invalid token")) := by
  refine ⟨?_, fun hle => ?_⟩
  · by_cases hlt : now < c.exp <;> simp [decode_token, decodeJwt, halg, hp, hlt]
  · simp [decode_token, decodeJwt, halg, hp, Nat.not_lt.mpr hle]

/-- Witness for C3: the same signed token accepted at `now = 5` (exp 9 in the
future) and rejected at `now = 9` (strict comparison). -/
theorem decode_token_expiry_strict_witness :
    decode_token (.enveloped defaultHeader (payloadOfClaims ⟨"u", 9, true⟩)
        (hmacSign "k" defaultHeader (payloadOfClaims ⟨"u", 9, true⟩))) "k" 5 =
      .ok ⟨"u", 9, true⟩ ∧
    decode_token (.enveloped defaultHeader (payloadOfClaims ⟨"u", 9, true⟩)
        (hmacSign "k" defaultHeader (payloadOfClaims ⟨"u", 9, true⟩))) "k" 9 =
      .error (.Unauthorized "Invalid token") :=
  ⟨(decode_token_expiry_strict defaultHeader _ ⟨"u", 9, true⟩ "k" 5 rfl
      (claimsOfPayload_payloadOfClaims ⟨"u", 9, true⟩ (by norm_num))).1.mpr (by norm_num),
    (decode_token_expiry_strict defaultHeader _ ⟨"u", 9, true⟩ "k" 9 rfl
      (claimsOfPayload_payloadOfClaims ⟨"u", 9, true⟩ (by norm_num))).2 (by norm_num)⟩

/-- C9: a correctly signed, unexpired token whose `sub` is not a UUID string
still decodes successfully (verification never parses `sub`), and the `me`
handler then fails with `BadRequest("Invalid user ID")`, status 400 — not
`Unauthorized`. -/
theorem decode_ok_sub_not_uuid_then_bad_request (secret : String) (now : Nat)
    (c : Claims) (st : Db) (hsub : Uuid.parse c.sub = none) (hexp : now < c.exp)
    (hfit : c.exp < 2 ^ 64) :
    decode_token (.enveloped defaultHeader (payloadOfClaims c)
        (hmacSign secret defaultHeader (payloadOfClaims c))) secret now = .ok c ∧
    me c st = .error (.BadRequest "Invalid user ID") ∧
    into_response (.BadRequest "Invalid user ID") = (400, "Invalid user ID") := by
  refine ⟨?_, ?_, rfl⟩
  · simp [decode_token, decodeJwt, defaultHeader,
      claimsOfPayload_payloadOfClaims c hfit, hexp]
  · simp [me, hsub]

/-- Witness for C9: the concrete sub "not-a-uuid" decodes fine and `me`
rejects it with a 400. -/
theorem decode_ok_sub_not_uuid_then_bad_request_witness :
    decode_token (.enveloped defaultHeader (payloadOfClaims ⟨"not-a-uuid", 10, false⟩)
        (hmacSign "k" defaultHeader (payloadOfClaims ⟨"not-a-uuid", 10, false⟩))) "k" 5 =
      .ok ⟨"not-a-uuid", 10, false⟩ ∧
    me ⟨"not-a-uuid", 10, false⟩ ⟨[], []⟩ = .error (.BadRequest "Invalid user ID") ∧
    into_response (.BadRequest "Invalid user ID") = (400, "Invalid user ID") :=
  decode_ok_sub_not_uuid_then_bad_request "k" 5 ⟨"not-a-uuid", 10, false⟩ ⟨[], []⟩
    (by decide) (by norm_num) (by norm_num)

/-- Counterexample to C1 as stated: with `jwt_expire_minutes = 0` the issued
token's `exp` equals the issuance time, and the strict `exp > now` check makes
the immediate decode fail instead of succeeding. -/
theorem create_then_decode_zero_lifetime_fails :
    (create_token ⟨0⟩ false ⟨"s", 0⟩ 1000).bind (fun t => decode_token t "s" 1000) =
      .error (.Unauthorized "Invalid token") := by
  decide

/-- C1 (amended): for a positive configured lifetime (whose expiry fits the
`usize` cast), `create_token` then immediate `decode_token` under the same
secret succeeds and returns claims with `sub` the string form of the subject
id, `is_admin` the input flag and `exp` the issuance time plus
`jwt_expire_minutes` in integer seconds. -/
theorem create_then_decode_roundtrip_pos_lifetime (u : Uuid) (is_admin : Bool)
    (secret : String) (m : Int) (now : Nat) (hm : 1 ≤ m)
    (hfit : (now : Int) + 60 * m < 2 ^ 64) :
    (create_token u is_admin ⟨secret, m⟩ now).bind (fun t => decode_token t secret now) =
      .ok { sub := u.to_string, exp := ((now : Int) + 60 * m).toNat, is_admin := is_admin } := by
  have h64 : ((2 : Int) ^ 64) = 18446744073709551616 := by norm_num
  have hnn : (0 : Int) ≤ (now : Int) + 60 * m := by omega
  have hmod : ((now : Int) + 60 * m) % 2 ^ 64 = (now : Int) + 60 * m :=
    Int.emod_eq_of_lt hnn hfit
  have hexp : now < ((now : Int) + 60 * m).toNat := by omega
  have hfitN : ((now : Int) + 60 * m).toNat < 2 ^ 64 := by
    have h64n : ((2 : Nat) ^ 64) = 18446744073709551616 := by norm_num
    rw [h64] at hfit
    rw [h64n]
    omega
  have key : create_token u is_admin ⟨secret, m⟩ now =
      .ok (.enveloped defaultHeader
        (payloadOfClaims ⟨u.to_string, ((now : Int) + 60 * m).toNat, is_admin⟩)
        (hmacSign secret defaultHeader
          (payloadOfClaims ⟨u.to_string, ((now : Int) + 60 * m).toNat, is_admin⟩))) := by
    simp only [create_token]
    rw [hmod]
  rw [key]
  show decode_token _ secret now = _
  simp [decode_token, decodeJwt, defaultHeader,
    claimsOfPayload_payloadOfClaims ⟨u.to_string, ((now : Int) + 60 * m).toNat, is_admin⟩ hfitN,
    hexp]

/-- Witness for the amended C1: subject 0, lifetime one minute, issuance at
time 0 round-trips to claims expiring at second 60. -/
theorem create_then_decode_roundtrip_pos_lifetime_witness :
    (create_token ⟨0⟩ true ⟨"s", 1⟩ 0).bind (fun t => decode_token t "s" 0) =
      .ok { sub := Uuid.to_string ⟨0⟩, exp := 60, is_admin := true } := by
  have h := create_then_decode_roundtrip_pos_lifetime ⟨0⟩ true "s" 1 0
    (by norm_num) (by norm_num)
  simpa using h

/-- `hash_password` never produces a `Forbidden` error (its failures are
internal errors), so the admin guard is the only Forbidden source in
`create_user`. -/
lemma hash_password_ne_forbidden (s : JoinOutcome (Except BcryptError String)) (msg : String) :
    hash_password s ≠ .error (.Forbidden msg) := by
  cases s with
  | joined r => cases r <;> simp [hash_password]
  | joinFailed => simp [hash_password]

/-- C5: every admin-only user-management handler fails with
`Forbidden("Admin access required")` and leaves the state untouched whenever
`claims.is_admin` is false, whatever the other arguments; when it is true,
none of them produces that error. -/
theorem admin_only_guard (c : Claims) (st : Db) (user_data : CreateUser)
    (spawnRes : JoinOutcome (Except BcryptError String)) (newId : Uuid) (ts : Int)
    (pagination : PaginationQuery) (target : String) (upd : UpdateUser) :
    (c.is_admin = false →
      create_user c user_data spawnRes newId ts st =
        (.error (.Forbidden "Admin access required"), st) ∧
      list_users c pagination st = .error (.Forbidden "Admin access required") ∧
      get_user c target st = .error (.Forbidden "Admin access required") ∧
      update_user c target upd st = (.error (.Forbidden "Admin access required"), st) ∧
      delete_user c target st = (.error (.Forbidden "Admin access required"), st)) ∧
    (c.is_admin = true →
      (create_user c user_data spawnRes newId ts st).1 ≠
        .error (.Forbidden "Admin access required") ∧
      list_users c pagination st ≠ .error (.Forbidden "Admin access required") ∧
      get_user c target st ≠ .error (.Forbidden "Admin access required") ∧
      (update_user c target upd st).1 ≠ .error (.Forbidden "Admin access required") ∧
      (delete_user c target st).1 ≠ .error (.Forbidden "Admin access required")) := by
  constructor
  · intro h
    refine ⟨?_, ?_, ?_, ?_, ?_⟩ <;>
      simp [create_user, list_users, get_user, update_user, delete_user, h]
  · intro h
    refine ⟨?_, ?_, ?_, ?_, ?_⟩
    · simp only [create_user, h, Bool.not_true, Bool.false_eq_true, if_false]
      cases hh : hash_password spawnRes with
      | error e =>
        have hne : e ≠ .Forbidden "Admin access required" := by
          intro he
          rw [he] at hh
          exact hash_password_ne_forbidden spawnRes _ hh
        simp [hh, hne]
      | ok pw =>
        simp only [hh]
        split <;> simp
    · simp [list_users, h]
    · simp only [get_user, h, Bool.not_true, Bool.false_eq_true, if_false]
      cases hp : Uuid.parse target with
      | none => simp [hp]
      | some t =>
        simp only [hp]
        cases hfind : st.users.find? (fun u => u.id == t) with
        | none => simp [hfind]
        | some row => simp [hfind]
    · simp only [update_user, h, Bool.not_true, Bool.false_eq_true, if_false]
      cases hp : Uuid.parse target with
      | none => simp [hp]
      | some t =>
        simp only [hp]
        cases hfind : st.users.find? (fun u => u.id == t) with
        | none => simp [hfind]
        | some row => simp [hfind]
    · simp only [delete_user, h, Bool.not_true, Bool.false_eq_true, if_false]
      cases hp : Uuid.parse target with
      | none => simp [hp]
      | some t =>
        simp only [hp]
        split <;> simp

/-- Witness for C5: a non-admin caller is refused by `create_user` with the
state untouched, and an admin caller passes the guard of `list_users`. -/
theorem admin_only_guard_witness :
    create_user ⟨"u", 0, false⟩ ⟨"n", "e", "p"⟩ (.joined (.ok "h")) ⟨0⟩ 0 ⟨[], []⟩ =
      (.error (.Forbidden "Admin access required"), ⟨[], []⟩) ∧
    list_users ⟨"u", 0, true⟩ ⟨20, 0⟩ ⟨[], []⟩ ≠ .error (.Forbidden "Admin access required") :=
  ⟨((admin_only_guard ⟨"u", 0, false⟩ ⟨[], []⟩ ⟨"n", "e", "p"⟩ (.joined (.ok "h")) ⟨0⟩ 0
      ⟨20, 0⟩ "t" ⟨none⟩).1 rfl).1,
    ((admin_only_guard ⟨"u", 0, true⟩ ⟨[], []⟩ ⟨"n", "e", "p"⟩ (.joined (.ok "h")) ⟨0⟩ 0
      ⟨20, 0⟩ "t" ⟨none⟩).2 rfl).2.1⟩

/-- Counterexample to C6 as stated: an existing post and a Claims value with
`is_admin = true` but a `sub` that is not a UUID string make `delete_post`
fail with `BadRequest("Invalid user ID")` instead of proceeding to 204. -/
theorem delete_post_admin_bad_sub_cx :
    delete_post ⟨"not-a-uuid", 99, true⟩ (Uuid.to_string ⟨2⟩) ⟨[], [⟨⟨2⟩, ⟨3⟩, "hi", 0⟩]⟩ =
      (.error (.BadRequest "Invalid user ID"), ⟨[], [⟨⟨2⟩, ⟨3⟩, "hi", 0⟩]⟩) := by
  decide

/-- C6 (amended): for every existing post and every Claims whose `sub` parses
as a UUID, `delete_post` fails with `Forbidden` unless the post's author id,
read from the current state, equals the caller's subject or the caller is
admin; when either condition holds the deletion proceeds, returns 204 and
removes the post. -/
theorem delete_post_owner_or_admin (c : Claims) (u : Uuid) (pidStr : String)
    (pid : Uuid) (p : DbPost) (st : Db)
    (hsub : Uuid.parse c.sub = some u)
    (hpid : Uuid.parse pidStr = some pid)
    (hfind : st.posts.find? (fun q => q.id == pid) = some p) :
    (¬(p.author_id = u ∨ c.is_admin = true) →
      delete_post c pidStr st =
        (.error (.Forbidden "You can only delete your own posts"), st)) ∧
    ((p.author_id = u ∨ c.is_admin = true) →
      (delete_post c pidStr st).1 = .ok 204 ∧
      (delete_post c pidStr st).2 =
        { st with posts := st.posts.filter (fun q => !(q.id == pid)) }) := by
  constructor
  · intro hno
    have h1 : p.author_id ≠ u := fun hh => hno (Or.inl hh)
    have h2 : ¬(c.is_admin = true) := fun hh => hno (Or.inr hh)
    simp [delete_post, hsub, hpid, hfind, h1, h2]
  · intro hyes
    rcases hyes with h | h <;> constructor <;> simp [delete_post, hsub, hpid, hfind, h]

/-- Witness for the amended C6: on a state holding one post authored by
subject 3, a non-owner non-admin caller (subject 5) gets Forbidden, and the
owner (subject 3) gets 204. -/
theorem delete_post_owner_or_admin_witness :
    delete_post ⟨Uuid.to_string ⟨5⟩, 9, false⟩ (Uuid.to_string ⟨2⟩)
        ⟨[], [⟨⟨2⟩, ⟨3⟩, "hi", 0⟩]⟩ =
      (.error (.Forbidden "You can only delete your own posts"),
        ⟨[], [⟨⟨2⟩, ⟨3⟩, "hi", 0⟩]⟩) ∧
    (delete_post ⟨Uuid.to_string ⟨3⟩, 9, false⟩ (Uuid.to_string ⟨2⟩)
        ⟨[], [⟨⟨2⟩, ⟨3⟩, "hi", 0⟩]⟩).1 = .ok 204 :=
  ⟨(delete_post_owner_or_admin ⟨Uuid.to_string ⟨5⟩, 9, false⟩ ⟨5⟩ (Uuid.to_string ⟨2⟩)
      ⟨2⟩ ⟨⟨2⟩, ⟨3⟩, "hi", 0⟩ ⟨[], [⟨⟨2⟩, ⟨3⟩, "hi", 0⟩]⟩
      (by decide) (by decide) (by decide)).1 (by decide),
    ((delete_post_owner_or_admin ⟨Uuid.to_string ⟨3⟩, 9, false⟩ ⟨3⟩ (Uuid.to_string ⟨2⟩)
      ⟨2⟩ ⟨⟨2⟩, ⟨3⟩, "hi", 0⟩ ⟨[], [⟨⟨2⟩, ⟨3⟩, "hi", 0⟩]⟩
      (by decide) (by decide) (by decide)).2 (Or.inl (by decide))).1⟩
